import Mathlib

/-!
Shallow embedding of `src/app.py` (a Streamlit application that uploads files
to a Snowflake stage, parses them with PARSE_DOCUMENT, answers questions with
AI_COMPLETE, generates presigned URLs and downloads files).

Remote calls (`session.sql(...).collect()`, `session.file.put_stream`,
`session.file.get_stream`) are modelled as oracle inputs of type
`Except String α`: `.error e` models the call raising an exception with
message `e`, `.ok v` models it returning `v`.  A query result is a list of
rows, each row a list of (non-null varchar) cells, matching the single-column
SELECT statements the app issues.  Python truthiness is modelled explicitly:
a list or row is truthy iff non-empty, a string is truthy iff non-empty,
`None` is falsy.

User-visible output and remote side effects are recorded as a trace of
events (`Ev`).  `st.stop()` is modelled as a halt flag (the Streamlit runtime
consumes the internal stop exception; the script render simply ends), and an
exception escaping a panel is modelled as an `Option String` result
component.  Whitespace inside the SQL/prompt f-strings is normalised to
single spaces / explicit newlines; the textual tokens are kept.
-/

/-- Events: remote calls made and UI output rendered during one render. -/
inductive Ev where
  | descCall (stmt : String)
  | createCall (stmt : String)
  | sqlCall (stmt : String)
  | putStreamCall (bytes : List Nat) (path : String) (autoCompress overwrite : Bool)
  | getStreamCall (path : String)
  | stError (msg : String)
  | stSidebarError (msg : String)
  | stSidebarSuccess (msg : String)
  | stSuccess (msg : String)
  | stWarning (msg : String)
  | stSubheader (msg : String)
  | stWrite (msg : String)
  | stCode (msg : String)
  | stSelectbox (label : String) (options : List String)
  | stSlider (label : String) (lo hi val : Nat)
  | stDownloadButton (fileName : String) (bytes : List Nat)
  | stStop
deriving DecidableEq, Repr

/-- A collected query result: raised exception or list of rows of cells. -/
abbrev QueryResult := Except String (List (List String))

/-- `DESC STAGE {stage_name_no_at}` (src/app.py line 23). -/
def descSql (name : String) : String := "DESC STAGE " ++ name

/-- The fixed encryption configuration of the CREATE STAGE statement
(src/app.py line 29). -/
def encryptionClause : String := "ENCRYPTION = (TYPE = \x27SNOWFLAKE_SSE\x27)"

/-- `CREATE STAGE {stage_name_no_at} ENCRYPTION = (TYPE = 'SNOWFLAKE_SSE')`
(src/app.py lines 27-30). -/
def createStageSql (name : String) : String :=
  "CREATE STAGE " ++ name ++ " " ++ encryptionClause

/--
`ensure_stage_exists(stage_name_no_at)` (src/app.py lines 17-34), as a
function of the outcomes of the two remote calls it may make.

* `descRes` — outcome of `session.sql(DESC STAGE ...).collect()`;
* `createRes` — outcome of `session.sql(CREATE STAGE ...).collect()`.

The bare `except:` catches any lookup failure; the inner
`except Exception as e:` catches any creation failure, shows a sidebar error
and calls `st.stop()`.  Returns (halted?, event trace); the function is
total: no exception escapes it.
-/
def ensure_stage_exists (name : String)
    (descRes : Except String Unit) (createRes : Except String Unit) :
    Bool × List Ev :=
  match descRes with
  | .ok _ => (false, [Ev.descCall (descSql name)])
  | .error _ =>
    match createRes with
    | .ok _ =>
      (false, [Ev.descCall (descSql name), Ev.createCall (createStageSql name),
               Ev.stSidebarSuccess ("Stage @" ++ name ++ " has been created.")])
    | .error e =>
      (true, [Ev.descCall (descSql name), Ev.createCall (createStageSql name),
              Ev.stSidebarError ("Failed to create stage: " ++ e), Ev.stStop])

/-- Constant tail of the PARSE_DOCUMENT statement, carrying the
`{'mode': 'OCR'}` option (src/app.py line 45). -/
def parseModeTail : String :=
  "\x27,\x7b\x27mode\x27: \x27OCR\x27\x7d ):content::varchar as parsed_content"

/-- The PARSE_DOCUMENT statement built in `parse_document`
(src/app.py lines 43-47). -/
def parseSql (stageName fileName : String) : String :=
  "SELECT snowflake.cortex.PARSE_DOCUMENT( " ++ stageName ++ ", \x27" ++
    fileName ++ parseModeTail

/--
`parse_document(stage_name, file_name)` (src/app.py lines 36-59) as a
function of the collected query result.  `if result and result[0]:` is
Python truthiness: the row list is non-empty and its first row is a
non-empty tuple; then `result[0][0]` is returned.  Any raised exception is
caught and reported with `st.error`; an empty result reports
"No content extracted from document".  Returns (value, event trace).
-/
def parse_document (stageName fileName : String) (res : QueryResult) :
    Option String × List Ev :=
  let call := Ev.sqlCall (parseSql stageName fileName)
  match res with
  | .error e => (none, [call, Ev.stError ("Failed to parse document: " ++ e)])
  | .ok rows =>
    match rows with
    | (c :: _) :: _ => (some c, [call])
    | _ => (none, [call, Ev.stError "No content extracted from document"])

/-- Python's f-string rendering of an `Optional[str]`: `None` prints as the
literal string "None" (as happens in `main` at src/app.py line 156, where the
possibly-None `parsed_content` is interpolated into the prompt). -/
def pyStr : Option String → String
  | none => "None"
  | some s => s

/-- The prompt template of `ai_complete` (src/app.py lines 65-74). -/
def promptTemplate (documentContent question : String) : String :=
  "Based on the following document content, please answer the question:\n" ++
  "Document Content:\n" ++ documentContent ++ "\n" ++
  "Question: " ++ question ++ "\n" ++
  "Please provide a comprehensive answer based only on the information in the document."

/-- The AI_COMPLETE statement built in `ai_complete`
(src/app.py lines 77-82). -/
def aiSql (prompt : String) : String :=
  "SELECT AI_COMPLETE( \x27openai-gpt-4.1\x27, \x27" ++ prompt ++
    "\x27 )::varchar as response"

/--
`ai_complete(document_content, question)` (src/app.py lines 61-93) as a
function of the collected query result.  `if result:` checks only that the
row list is non-empty; then `result[0][0]` is read (on a first row that is an
empty tuple this raises IndexError, which the same `except` catches).  An
empty row list returns the literal string "No response generated".  A raised
exception is caught, reported with `st.error`, and `None` is returned.
-/
def ai_complete (documentContent question : String) (res : QueryResult) :
    Option String × List Ev :=
  let call := Ev.sqlCall (aiSql (promptTemplate documentContent question))
  match res with
  | .error e =>
      (none, [call, Ev.stError ("Failed to get AI completion: " ++ e)])
  | .ok [] => (some "No response generated", [call])
  | .ok ((c :: _) :: _) => (some c, [call])
  | .ok ([] :: _) =>
      (none, [call, Ev.stError "Failed to get AI completion: tuple index out of range"])

/-- An uploaded file: name and byte content (src/app.py line 130). -/
structure FileInfo where
  name : String
  content : List Nat
deriving DecidableEq, Repr

/-- Oracle outcomes for the three remote calls the upload tab may make. -/
structure UploadOracle where
  putRes : Except String Unit
  parseRes : QueryResult
  aiRes : QueryResult
deriving Repr

/--
The File Upload tab body (src/app.py lines 126-163) as a function of the
uploaded file (if any), the question text, and the remote-call oracles.
The `try` wraps `put_stream` through the question/answer block, so a
`put_stream` failure shows "Error occurred while uploading file: ..." and
skips the rest.  `if question:` is string truthiness (non-empty).  When a
question is present, `parse_document` is called and its (possibly None)
result is passed straight to `ai_complete`; `if answer:` renders the
AI Response block only for a non-None, non-empty answer.
-/
def uploadPanel (stageName : String) (uploadedFile : Option FileInfo)
    (question : String) (o : UploadOracle) : List Ev :=
  match uploadedFile with
  | none => []
  | some f =>
    let putEv := Ev.putStreamCall f.content (stageName ++ "/" ++ f.name) false true
    match o.putRes with
    | .error e => [putEv, Ev.stError ("Error occurred while uploading file: " ++ e)]
    | .ok _ =>
      let base := [putEv,
        Ev.stSuccess ("File \x27" ++ f.name ++ "\x27 has been uploaded successfully!"),
        Ev.stSubheader "Ask Questions"]
      if question = "" then base
      else
        let pd := parse_document stageName f.name o.parseRes
        let ac := ai_complete (pyStr pd.fst) question o.aiRes
        base ++ pd.snd ++ ac.snd ++
          (match ac.fst with
           | some a =>
             if a = "" then []
             else [Ev.stSubheader "AI Response", Ev.stWrite a]
           | none => [])

/-- `LIST {stage_name}` (src/app.py lines 173 and 223). -/
def listSql (stageName : String) : String := "LIST " ++ stageName

/-- The characters of a list after the first `'/'`, if any. -/
def afterFirstSlash : List Char → Option (List Char)
  | [] => none
  | c :: cs => if c = '/' then some cs else afterFirstSlash cs

/-- `row['name'].split('/', 1)[1] if '/' in row['name'] else row['name']`
(src/app.py lines 176 and 226): the name with everything up to and
including the first `'/'` stripped, or unchanged if it has no `'/'`. -/
def displayName (s : String) : String :=
  match afterFirstSlash s.data with
  | some cs => String.mk cs
  | none => s

/-- A Streamlit slider with bounds `lo`/`hi` can only yield values inside
the bounds: the raw requested value is clamped (src/app.py lines 185-191
set min_value=1, max_value=7). -/
def sliderClamp (lo hi v : Nat) : Nat :=
  if v < lo then lo else if hi < v then hi else v

/-- The GET_PRESIGNED_URL statement (src/app.py lines 197-203). -/
def urlStatement (stageNameNoAt selectedFile : String) (expirationSeconds : Nat) :
    String :=
  "SELECT GET_PRESIGNED_URL( \x27@" ++ stageNameNoAt ++ "\x27, \x27" ++
    selectedFile ++ "\x27, " ++ toString expirationSeconds ++ " )"

/--
The Generate Presigned URL tab body (src/app.py lines 168-213) as a function
of the listing outcome, the selected index, the raw slider request, the
submit flag and the URL-generation outcome.

The `LIST` call at line 173 is NOT inside any try/except: a listing failure
escapes the panel, modelled by the `Option String` component (`some e` =
exception `e` propagated past the panel).  Only the URL generation at lines
195-211 is guarded.  Returns (event trace, escaped exception?).
-/
def urlPanel (stageNameNoAt stageName : String)
    (listRes : Except String (List String)) (selIdx rawDays : Nat)
    (submitted : Bool) (urlRes : QueryResult) : List Ev × Option String :=
  let listEv := Ev.sqlCall (listSql stageName)
  match listRes with
  | .error e => ([listEv], some e)
  | .ok names =>
    if names.isEmpty then
      ([listEv, Ev.stWarning "No files found in stage."], none)
    else
      let fileNames := names.map displayName
      let selected := fileNames.getD selIdx ""
      let days := sliderClamp 1 7 rawDays
      let widgets := [listEv,
        Ev.stSelectbox "Select a file to generate URL" fileNames,
        Ev.stSlider "Select expiration period (days)" 1 7 days]
      if !submitted then (widgets, none)
      else
        let secs := days * 24 * 60 * 60
        let stmt := urlStatement stageNameNoAt selected secs
        match urlRes with
        | .error e =>
            (widgets ++ [Ev.sqlCall stmt, Ev.stError ("An error occurred: " ++ e)], none)
        | .ok ((u :: _) :: _) =>
            (widgets ++ [Ev.sqlCall stmt, Ev.stSuccess "URL generated successfully!",
              Ev.stWrite ("Presigned URL (valid for " ++ toString days ++ " days):"),
              Ev.stCode u], none)
        | .ok _ =>
            (widgets ++ [Ev.sqlCall stmt,
              Ev.stError "An error occurred: index out of range"], none)

/--
The File Download tab body (src/app.py lines 218-247) as a function of the
listing outcome, the selected index, the Download-button flag and the
file-stream outcome.  As in the URL tab, the `LIST` call at line 223 is not
guarded and a listing failure escapes the panel; the `get_stream` read at
lines 235-245 is guarded.  Returns (event trace, escaped exception?).
-/
def downloadPanel (stageName : String)
    (listRes : Except String (List String)) (selIdx : Nat)
    (clicked : Bool) (getRes : Except String (List Nat)) :
    List Ev × Option String :=
  let listEv := Ev.sqlCall (listSql stageName)
  match listRes with
  | .error e => ([listEv], some e)
  | .ok names =>
    if names.isEmpty then
      ([listEv, Ev.stWarning "No files found in stage."], none)
    else
      let fileNames := names.map displayName
      let selected := fileNames.getD selIdx ""
      let widgets := [listEv, Ev.stSelectbox "Select a file to download" fileNames]
      if !clicked then (widgets, none)
      else
        match getRes with
        | .error e =>
            (widgets ++ [Ev.getStreamCall (stageName ++ "/" ++ selected),
              Ev.stError ("An error occurred: " ++ e)], none)
        | .ok bytes =>
            (widgets ++ [Ev.getStreamCall (stageName ++ "/" ++ selected),
              Ev.stDownloadButton selected bytes], none)

/-!  A small world model of the remote stage, used for the idempotence
claim about `ensure_stage_exists`.  -/

/-- State of the remote platform as seen by the guard: whether the stage is
present, whether a create call would be accepted, and whether the
read-only lookup suffers a transient failure. -/
structure StageWorld where
  present : Bool
  createWorks : Bool
  lookupGlitch : Bool
deriving DecidableEq, Repr

/-- Outcome of `DESC STAGE`: succeeds iff the stage is present and the
lookup does not transiently fail. -/
def descOutcome (w : StageWorld) : Except String Unit :=
  if w.present && !w.lookupGlitch then .ok () else .error "DESC STAGE failed"

/-- Outcome of `CREATE STAGE`: succeeds iff the stage is absent and the
platform accepts the creation (creating an existing stage fails). -/
def createOutcome (w : StageWorld) : Except String Unit :=
  if !w.present && w.createWorks then .ok () else .error "CREATE STAGE failed"

/-- One run of the guard against a world: the new world (the stage becomes
present when the create succeeds), the halt flag and the trace. -/
def guardRun (name : String) (w : StageWorld) : StageWorld × Bool × List Ev :=
  let r := ensure_stage_exists name (descOutcome w) (createOutcome w)
  let w' := if !(descOutcome w).isOk && (createOutcome w).isOk then
              { w with present := true } else w
  (w', r.fst, r.snd)

/-- The CREATE STAGE calls recorded in a trace. -/
def createCallList (evs : List Ev) : List Ev :=
  evs.filter (fun e => match e with | Ev.createCall _ => true | _ => false)

/-- Number of CREATE STAGE calls in a trace. -/
def createCallCount (evs : List Ev) : Nat := (createCallList evs).length

/-- Total CREATE STAGE calls over two successive guard calls; a second call
happens only if the first did not halt the render. -/
def guardTwiceCreates (name : String) (w : StageWorld) : Nat :=
  let r1 := guardRun name w
  if r1.snd.fst then createCallCount r1.snd.snd
  else createCallCount r1.snd.snd + createCallCount (guardRun name r1.fst).snd.snd

/-- Number of `session.sql(...).collect()` calls (`Ev.sqlCall`) in a trace. -/
def sqlCallCount (evs : List Ev) : Nat :=
  (evs.filter (fun e => match e with | Ev.sqlCall _ => true | _ => false)).length

/-!  Helper lemmas (shared).  -/

theorem afterFirstSlash_of_not_mem (l : List Char) (h : '/' ∉ l) :
    afterFirstSlash l = none := by
  induction l with
  | nil => rfl
  | cons c cs ih =>
    simp only [List.mem_cons, not_or] at h
    have hc : ¬(c = '/') := fun hc => h.1 hc.symm
    simp only [afterFirstSlash, if_neg hc]
    exact ih h.2

theorem afterFirstSlash_append (a b : List Char) (h : '/' ∉ a) :
    afterFirstSlash (a ++ '/' :: b) = some b := by
  induction a with
  | nil => simp [afterFirstSlash]
  | cons c cs ih =>
    simp only [List.mem_cons, not_or] at h
    have hc : ¬(c = '/') := fun hc => h.1 hc.symm
    simp only [List.cons_append, afterFirstSlash, if_neg hc]
    exact ih h.2

theorem displayName_of_no_slash (s : String) (h : '/' ∉ s.data) :
    displayName s = s := by
  simp [displayName, afterFirstSlash_of_not_mem s.data h]

theorem displayName_strips_one_level (a b : String) (h : '/' ∉ a.data) :
    displayName (a ++ "/" ++ b) = b := by
  have hdata : (a ++ "/" ++ b).data = a.data ++ '/' :: b.data := by
    simp [String.data_append]
  simp only [displayName, hdata, afterFirstSlash_append a.data b.data h]

theorem parseCall_mem_parse_document (stage file : String) (res : QueryResult) :
    Ev.sqlCall (parseSql stage file) ∈ (parse_document stage file res).snd := by
  rcases res with e | rows
  · simp [parse_document]
  · rcases rows with _ | ⟨r, rest⟩
    · simp [parse_document]
    · rcases r with _ | ⟨c, cs⟩ <;> simp [parse_document]

theorem aiCall_mem_ai_complete (p q : String) (res : QueryResult) :
    Ev.sqlCall (aiSql (promptTemplate p q)) ∈ (ai_complete p q res).snd := by
  rcases res with e | rows
  · simp [ai_complete]
  · rcases rows with _ | ⟨r, rest⟩
    · simp [ai_complete]
    · rcases r with _ | ⟨c, cs⟩ <;> simp [ai_complete]

/-!  Claim theorems.  -/

/-- C3: for every resource name, if the Guard's (`ensure_stage_exists`)
creation attempt fails, it reports a terminal error to the user and halts
further execution for the current render cycle (the halt flag is set and an
`st.stop` event is emitted), and no exception propagates past the Guard
(the function returns a value rather than an error). -/
theorem c3_guard_terminal_failure_halts (name d e : String) :
    (ensure_stage_exists name (.error d) (.error e)).fst = true ∧
    Ev.stSidebarError ("Failed to create stage: " ++ e)
      ∈ (ensure_stage_exists name (.error d) (.error e)).snd ∧
    Ev.stStop ∈ (ensure_stage_exists name (.error d) (.error e)).snd := by
  refine ⟨rfl, ?_, ?_⟩ <;> simp [ensure_stage_exists]

/-- C5: for every resource name, if the Guard's read-only descriptor lookup
fails for any reason whatsoever, exactly one creation attempt is made, and
it carries the fixed SNOWFLAKE_SSE encryption configuration; if the lookup
succeeds, no creation attempt is made. -/
theorem c5_lookup_failure_single_create (name d : String)
    (createRes : Except String Unit) (u : Unit) :
    createCallList (ensure_stage_exists name (.error d) createRes).snd =
      [Ev.createCall (createStageSql name)] ∧
    createCallList (ensure_stage_exists name (.ok u) createRes).snd = [] ∧
    createStageSql name = ("CREATE STAGE " ++ name ++ " ") ++ encryptionClause ∧
    (∃ a b, encryptionClause = a ++ "SNOWFLAKE_SSE" ++ b) := by
  refine ⟨?_, ?_, rfl, "ENCRYPTION = (TYPE = \x27", "\x27)", rfl⟩
  · cases createRes <;> simp [ensure_stage_exists, createCallList]
  · simp [ensure_stage_exists, createCallList]

/-- C4: for every resource name, under the claim's own premise that a lookup
on an existing resource succeeds (no transient lookup glitch), a single
Guard call performs at most one remote create, two successive Guard calls
perform at most one create in total, and when the resource already exists
the Guard performs no create at all. -/
theorem c4_guard_idempotent (name : String) (w : StageWorld)
    (h : w.lookupGlitch = false) :
    createCallCount (guardRun name w).snd.snd ≤ 1 ∧
    guardTwiceCreates name w ≤ 1 ∧
    (w.present = true → createCallCount (guardRun name w).snd.snd = 0) := by
  obtain ⟨p, c, g⟩ := w
  cases p <;> cases c <;> cases g <;>
    simp_all [guardRun, guardTwiceCreates, ensure_stage_exists, descOutcome,
      createOutcome, createCallCount, createCallList, List.filter]

/-- Witness for C4 at a concrete world: stage absent, creation accepted,
reliable lookup. -/
theorem c4_guard_idempotent_witness :
    (StageWorld.mk false true false).lookupGlitch = false ∧
    (createCallCount (guardRun "MY_INT_STAGE" ⟨false, true, false⟩).snd.snd ≤ 1 ∧
     guardTwiceCreates "MY_INT_STAGE" ⟨false, true, false⟩ ≤ 1 ∧
     ((StageWorld.mk false true false).present = true →
       createCallCount (guardRun "MY_INT_STAGE" ⟨false, true, false⟩).snd.snd = 0)) :=
  ⟨rfl, c4_guard_idempotent "MY_INT_STAGE" ⟨false, true, false⟩ rfl⟩

/-- C7: every invocation of `parse_document` issues exactly one remote
request, whose statement is the OCR-mode PARSE_DOCUMENT statement; on a
non-empty result it returns the first row's first column; if the remote call
raises or the result is empty it returns `none` and a user-visible error
message is emitted. -/
theorem c7_parse_document_contract (stage file : String) (res : QueryResult) :
    sqlCallCount (parse_document stage file res).snd = 1 ∧
    Ev.sqlCall (parseSql stage file) ∈ (parse_document stage file res).snd ∧
    (∃ pre, parseSql stage file = pre ++ parseModeTail) ∧
    (∃ a b, parseModeTail = a ++ "\x27OCR\x27" ++ b) ∧
    (∀ c r rest, res = .ok ((c :: r) :: rest) →
      (parse_document stage file res).fst = some c) ∧
    (∀ e, res = .error e → (parse_document stage file res).fst = none ∧
      Ev.stError ("Failed to parse document: " ++ e)
        ∈ (parse_document stage file res).snd) ∧
    (res = .ok [] → (parse_document stage file res).fst = none ∧
      Ev.stError "No content extracted from document"
        ∈ (parse_document stage file res).snd) := by
  refine ⟨?_, parseCall_mem_parse_document stage file res,
    ⟨"SELECT snowflake.cortex.PARSE_DOCUMENT( " ++ stage ++ ", \x27" ++ file, rfl⟩,
    ⟨"\x27,\x7b\x27mode\x27: ", "\x7d ):content::varchar as parsed_content", rfl⟩,
    ?_, ?_, ?_⟩
  · rcases res with e | rows
    · simp [parse_document, sqlCallCount, List.filter]
    · rcases rows with _ | ⟨r, rest⟩
      · simp [parse_document, sqlCallCount, List.filter]
      · rcases r with _ | ⟨c, cs⟩ <;> simp [parse_document, sqlCallCount, List.filter]
  · rintro c r rest rfl
    simp [parse_document]
  · rintro e rfl
    simp [parse_document]
  · rintro rfl
    simp [parse_document]

/-- Witness for C7: a successful one-row result yields its first cell; a
raised remote error yields `none`. -/
theorem c7_parse_document_contract_witness :
    (parse_document "@MY_INT_STAGE" "report.pdf" (.ok [["hello"]])).fst = some "hello" ∧
    (parse_document "@MY_INT_STAGE" "report.pdf" (.error "boom")).fst = none :=
  ⟨(c7_parse_document_contract "@MY_INT_STAGE" "report.pdf"
      (.ok [["hello"]])).2.2.2.2.1 "hello" [] [] rfl,
   ((c7_parse_document_contract "@MY_INT_STAGE" "report.pdf"
      (.error "boom")).2.2.2.2.2.1 "boom" rfl).1⟩

/-- C10: when the remote completion call succeeds with an empty result set,
`ai_complete` returns the literal string "No response generated" rather than
`none`; on results whose rows are non-empty it never returns `none`; only a
raised error yields `none`; and the caller renders the literal string under
the AI Response heading as if it were an answer. -/
theorem c10_ai_complete_empty_result (p q : String) :
    (ai_complete p q (.ok [])).fst = some "No response generated" ∧
    (∀ e, (ai_complete p q (.error e)).fst = none) ∧
    (∀ rows, (∀ r ∈ rows, r ≠ ([] : List String)) →
      (ai_complete p q (.ok rows)).fst ≠ none) ∧
    (∀ stageName : String, ∀ f : FileInfo, ∀ o : UploadOracle,
      q ≠ "" → o.putRes = .ok () → o.aiRes = .ok [] →
      ∃ pre, uploadPanel stageName (some f) q o =
        pre ++ [Ev.stSubheader "AI Response", Ev.stWrite "No response generated"]) := by
  refine ⟨rfl, fun e => rfl, ?_, ?_⟩
  · intro rows hrows
    rcases rows with _ | ⟨r, rest⟩
    · simp [ai_complete]
    · rcases r with _ | ⟨c, cs⟩
      · exact absurd rfl (hrows [] (by simp))
      · simp [ai_complete]
  · intro stageName f o hq hput hai
    obtain ⟨putRes, parseRes, aiRes⟩ := o
    cases hput
    cases hai
    refine ⟨[Ev.putStreamCall f.content (stageName ++ "/" ++ f.name) false true,
      Ev.stSuccess ("File \x27" ++ f.name ++ "\x27 has been uploaded successfully!"),
      Ev.stSubheader "Ask Questions"] ++
      (parse_document stageName f.name parseRes).snd ++
      [Ev.sqlCall (aiSql (promptTemplate
        (pyStr (parse_document stageName f.name parseRes).fst) q))], ?_⟩
    simp [uploadPanel, ai_complete, hq]

/-- Witness for C10: concrete empty completion result, and the rendered
trace of a concrete render ending in the AI Response block. -/
theorem c10_ai_complete_empty_result_witness :
    (ai_complete "doc text" "What?" (.ok [])).fst = some "No response generated" ∧
    ∃ pre, uploadPanel "@MY_INT_STAGE" (some ⟨"report.pdf", [1, 2]⟩) "What?"
        ⟨.ok (), .ok [["doc text"]], .ok []⟩ =
      pre ++ [Ev.stSubheader "AI Response", Ev.stWrite "No response generated"] :=
  ⟨(c10_ai_complete_empty_result "doc text" "What?").1,
   (c10_ai_complete_empty_result "doc text" "What?").2.2.2 "@MY_INT_STAGE"
     ⟨"report.pdf", [1, 2]⟩ ⟨.ok (), .ok [["doc text"]], .ok []⟩
     (by simp) rfl rfl⟩

/-- C8: for every uploaded file the Upload panel transfers its bytes
verbatim to the stage path with compression disabled and overwrite enabled;
with an empty question no remote SQL call is made; once a non-empty question
is entered (and the transfer succeeded) the Extractor's parse call and then
the Answerer's completion call both occur. -/
theorem c8_upload_transfer_and_gating (stageName : String) (f : FileInfo)
    (question : String) (o : UploadOracle) :
    Ev.putStreamCall f.content (stageName ++ "/" ++ f.name) false true
      ∈ uploadPanel stageName (some f) question o ∧
    (question = "" → sqlCallCount (uploadPanel stageName (some f) question o) = 0) ∧
    (question ≠ "" → o.putRes = .ok () →
      Ev.sqlCall (parseSql stageName f.name)
        ∈ uploadPanel stageName (some f) question o ∧
      Ev.sqlCall (aiSql (promptTemplate
          (pyStr (parse_document stageName f.name o.parseRes).fst) question))
        ∈ uploadPanel stageName (some f) question o) := by
  obtain ⟨putRes, parseRes, aiRes⟩ := o
  refine ⟨?_, ?_, ?_⟩
  · rcases putRes with e | u
    · simp [uploadPanel]
    · by_cases hq : question = "" <;> simp [uploadPanel, hq]
  · rintro rfl
    rcases putRes with e | u <;>
      simp [uploadPanel, sqlCallCount, List.filter]
  · intro hq hput
    cases hput
    constructor
    · simp only [uploadPanel, if_neg hq]
      exact List.mem_append_left _ (List.mem_append_left _
        (List.mem_append_right _ (parseCall_mem_parse_document stageName f.name parseRes)))
    · simp only [uploadPanel, if_neg hq]
      exact List.mem_append_left _ (List.mem_append_right _
        (aiCall_mem_ai_complete (pyStr (parse_document stageName f.name parseRes).fst)
          question aiRes))

/-- Witness for C8 at concrete inputs: empty question makes no SQL call;
with a question, the parse call occurs. -/
theorem c8_upload_transfer_and_gating_witness :
    sqlCallCount (uploadPanel "@MY_INT_STAGE" (some ⟨"report.pdf", [1]⟩) ""
      ⟨.ok (), .ok [], .ok []⟩) = 0 ∧
    Ev.sqlCall (parseSql "@MY_INT_STAGE" "report.pdf")
      ∈ uploadPanel "@MY_INT_STAGE" (some ⟨"report.pdf", [1]⟩) "Q"
        ⟨.ok (), .ok [["t"]], .ok [["a"]]⟩ :=
  ⟨(c8_upload_transfer_and_gating "@MY_INT_STAGE" ⟨"report.pdf", [1]⟩ ""
      ⟨.ok (), .ok [], .ok []⟩).2.1 rfl,
   ((c8_upload_transfer_and_gating "@MY_INT_STAGE" ⟨"report.pdf", [1]⟩ "Q"
      ⟨.ok (), .ok [["t"]], .ok [["a"]]⟩).2.2 (by simp) rfl).1⟩

/-- C1 (code behaviour at a failing input): in a render where the Extractor
fails (remote parse error, so `parse_document` returns `none`), the caller
still invokes `ai_complete` — the AI_COMPLETE statement is issued with the
literal document content "None" — and, the completion succeeding, an
AI Response panel is rendered.  This contradicts the claim that the
Answerer is never invoked and no answer panel is rendered. -/
theorem c1_answerer_invoked_despite_absent_extraction :
    uploadPanel "@MY_INT_STAGE" (some ⟨"report.pdf", [37, 80, 68, 70]⟩)
      "What is the total?"
      ⟨.ok (), .error "parse service unavailable", .ok [["The total is 42."]]⟩ =
    [Ev.putStreamCall [37, 80, 68, 70] "@MY_INT_STAGE/report.pdf" false true,
     Ev.stSuccess "File \x27report.pdf\x27 has been uploaded successfully!",
     Ev.stSubheader "Ask Questions",
     Ev.sqlCall (parseSql "@MY_INT_STAGE" "report.pdf"),
     Ev.stError "Failed to parse document: parse service unavailable",
     Ev.sqlCall (aiSql (promptTemplate "None" "What is the total?")),
     Ev.stSubheader "AI Response",
     Ev.stWrite "The total is 42."] := rfl

/-- C2 counterexample: a failing `LIST` call is NOT caught inside the
Signed URL or Download panel — the exception escapes the panel (the
`Option String` component is `some`), contradicting the claim that every
remote listing failure is caught locally and surfaced inline. -/
theorem c2_listing_failure_escapes_panel :
    (urlPanel "MY_INT_STAGE" "@MY_INT_STAGE" (.error "listing failed") 0 1 false
      (.ok [])).snd = some "listing failed" ∧
    (downloadPanel "@MY_INT_STAGE" (.error "listing failed") 0 false
      (.error "x")).snd = some "listing failed" :=
  ⟨rfl, rfl⟩

/-- C2 (amended): the signed-URL generation call and the download stream
call are guarded — their failures are caught locally, surfaced as an inline
"An error occurred" message, and no exception escapes; but the listing call
itself is unguarded, and its failure propagates out of either panel. -/
theorem c2_amended_guarded_calls_caught (snoAt sn e : String)
    (names : List String) (selIdx rawDays : Nat)
    (urlRes : QueryResult) (getRes : Except String (List Nat))
    (hn : names ≠ []) :
    (urlPanel snoAt sn (.ok names) selIdx rawDays true (.error e)).snd = none ∧
    Ev.stError ("An error occurred: " ++ e)
      ∈ (urlPanel snoAt sn (.ok names) selIdx rawDays true (.error e)).fst ∧
    (downloadPanel sn (.ok names) selIdx true (.error e)).snd = none ∧
    Ev.stError ("An error occurred: " ++ e)
      ∈ (downloadPanel sn (.ok names) selIdx true (.error e)).fst ∧
    (urlPanel snoAt sn (.error e) selIdx rawDays true urlRes).snd = some e ∧
    (downloadPanel sn (.error e) selIdx true getRes).snd = some e := by
  rcases names with _ | ⟨n, ns⟩
  · exact absurd rfl hn
  · refine ⟨?_, ?_, ?_, ?_, rfl, rfl⟩ <;>
      simp [urlPanel, downloadPanel]

/-- Witness for C2 (amended) at a concrete stage listing. -/
theorem c2_amended_guarded_calls_caught_witness :
    (urlPanel "MY_INT_STAGE" "@MY_INT_STAGE" (.ok ["stage/report.pdf"]) 0 3 true
      (.error "url failed")).snd = none ∧
    Ev.stError "An error occurred: url failed"
      ∈ (urlPanel "MY_INT_STAGE" "@MY_INT_STAGE" (.ok ["stage/report.pdf"]) 0 3 true
        (.error "url failed")).fst :=
  ⟨(c2_amended_guarded_calls_caught "MY_INT_STAGE" "@MY_INT_STAGE" "url failed"
      ["stage/report.pdf"] 0 3 (.ok []) (.ok []) (by simp)).1,
   (c2_amended_guarded_calls_caught "MY_INT_STAGE" "@MY_INT_STAGE" "url failed"
      ["stage/report.pdf"] 0 3 (.ok []) (.ok []) (by simp)).2.1⟩

/-- C6: for every expiration input `d` within the slider bounds 1–7, the
expiration value passed to the GET_PRESIGNED_URL call is `d * 24 * 60 * 60`,
which equals `d * 86400` seconds; and no value outside `[1, 7]` is reachable
through the slider control. -/
theorem c6_expiration_seconds (snoAt sn : String) (names : List String)
    (selIdx d : Nat) (urlRes : QueryResult)
    (h1 : 1 ≤ d) (h7 : d ≤ 7) (hn : names ≠ []) :
    Ev.sqlCall (urlStatement snoAt ((names.map displayName).getD selIdx "")
        (d * 24 * 60 * 60))
      ∈ (urlPanel snoAt sn (.ok names) selIdx d true urlRes).fst ∧
    d * 24 * 60 * 60 = d * 86400 ∧
    (∀ raw : Nat, 1 ≤ sliderClamp 1 7 raw ∧ sliderClamp 1 7 raw ≤ 7) := by
  have hclamp : sliderClamp 1 7 d = d := by
    unfold sliderClamp
    split
    · omega
    · split <;> omega
  refine ⟨?_, by ring, ?_⟩
  · rcases names with _ | ⟨n, ns⟩
    · exact absurd rfl hn
    · rcases urlRes with e | rows
      · simp [urlPanel, hclamp]
      · rcases rows with _ | ⟨r, rest⟩
        · simp [urlPanel, hclamp]
        · rcases r with _ | ⟨u, us⟩ <;> simp [urlPanel, hclamp]
  · intro raw
    unfold sliderClamp
    split
    · omega
    · split <;> omega

/-- Witness for C6 at `d = 3`: the statement passed to URL generation
carries 259200 seconds. -/
theorem c6_expiration_seconds_witness :
    Ev.sqlCall (urlStatement "MY_INT_STAGE"
        ((["stage/report.pdf"].map displayName).getD 0 "") (3 * 24 * 60 * 60))
      ∈ (urlPanel "MY_INT_STAGE" "@MY_INT_STAGE" (.ok ["stage/report.pdf"]) 0 3 true
        (.ok [["https://example"]])).fst ∧
    3 * 24 * 60 * 60 = 259200 :=
  ⟨(c6_expiration_seconds "MY_INT_STAGE" "@MY_INT_STAGE" ["stage/report.pdf"] 0 3
      (.ok [["https://example"]]) (by decide) (by decide) (by simp)).1,
   rfl⟩

/-- C9: in both the Signed URL and the Download panel, the file names shown
to the user in the selection control are the listed object names mapped
through `displayName`, which strips exactly one level of path prefix (the
part after the first `/`) and leaves a name without `/` unchanged. -/
theorem c9_display_name_strips_one_level (snoAt sn : String)
    (names : List String) (selIdx rawDays : Nat) (urlRes : QueryResult)
    (getRes : Except String (List Nat)) (submitted clicked : Bool)
    (hn : names ≠ []) :
    Ev.stSelectbox "Select a file to generate URL" (names.map displayName)
      ∈ (urlPanel snoAt sn (.ok names) selIdx rawDays submitted urlRes).fst ∧
    Ev.stSelectbox "Select a file to download" (names.map displayName)
      ∈ (downloadPanel sn (.ok names) selIdx clicked getRes).fst ∧
    (∀ s : String, '/' ∉ s.data → displayName s = s) ∧
    (∀ a b : String, '/' ∉ a.data → displayName (a ++ "/" ++ b) = b) := by
  refine ⟨?_, ?_, displayName_of_no_slash, displayName_strips_one_level⟩
  · rcases names with _ | ⟨n, ns⟩
    · exact absurd rfl hn
    · rcases submitted with _ | _
      · simp [urlPanel]
      · rcases urlRes with e | rows
        · simp [urlPanel]
        · rcases rows with _ | ⟨r, rest⟩
          · simp [urlPanel]
          · rcases r with _ | ⟨u, us⟩ <;> simp [urlPanel]
  · rcases names with _ | ⟨n, ns⟩
    · exact absurd rfl hn
    · rcases clicked with _ | _
      · simp [downloadPanel]
      · rcases getRes with e | bytes <;> simp [downloadPanel]

/-- Witness for C9: a concrete listed name "stage/report.pdf" is shown as
"report.pdf" in the Download panel options. -/
theorem c9_display_name_strips_one_level_witness :
    Ev.stSelectbox "Select a file to download" (["stage/report.pdf"].map displayName)
      ∈ (downloadPanel "@MY_INT_STAGE" (.ok ["stage/report.pdf"]) 0 false
        (.ok [])).fst ∧
    displayName ("stage" ++ "/" ++ "report.pdf") = "report.pdf" :=
  ⟨(c9_display_name_strips_one_level "MY_INT_STAGE" "@MY_INT_STAGE"
      ["stage/report.pdf"] 0 1 (.ok []) (.ok []) false false (by simp)).2.1,
   (c9_display_name_strips_one_level "MY_INT_STAGE" "@MY_INT_STAGE"
      ["stage/report.pdf"] 0 1 (.ok []) (.ok []) false false (by simp)).2.2.2
     "stage" "report.pdf" (by decide)⟩
